import Mathlib

/-
Verification of the nav-rewards reward evaluation and awarding engine.

The Python sources are shallowly embedded: the `RewardObject` methods of
src/rewards/rewards/base.py and the `MarketplaceService` methods of
src/rewards/bonus/service.py become pure Lean functions, with the
database connection, the template engine and the notification transports
(out-of-scope collaborators) passed in as explicit function arguments,
fallible code returning `Except`, and the mutable `_failed_conditions`
attribute threaded as explicit state.
-/

namespace NavRewards

/-- Scalar Python values (None, ints, strings) as they appear in
sessions, stores and environment attribute maps. -/
inductive PyAtom where
  | none
  | int (n : Int)
  | str (s : String)
deriving DecidableEq, Repr

/-- A Python value at the granularity the embedded checks need: a scalar
or a flat list of scalars (groups, programs and job-code lists are lists
of scalars in this system). -/
inductive PyVal where
  | atom (a : PyAtom)
  | list (vs : List PyAtom)
deriving DecidableEq, Repr

/-- A naive Python `datetime.datetime`: year, month, day, hour, minute,
second, microsecond. Python compares datetimes field-lexicographically. -/
structure DateTime where
  year : Nat
  month : Nat
  day : Nat
  hour : Nat
  minute : Nat
  second : Nat
  microsecond : Nat
deriving DecidableEq, Repr

def DateTime.fields (t : DateTime) : List Nat :=
  [t.year, t.month, t.day, t.hour, t.minute, t.second, t.microsecond]

/-- Python `<` on datetimes (lexicographic on the seven fields). -/
def DateTime.before (a b : DateTime) : Bool := decide (a.fields < b.fields)

/-- `timestamp.replace(minute=0, second=0, microsecond=0)`. -/
def DateTime.hourTrunc (t : DateTime) : DateTime :=
  { t with minute := 0, second := 0, microsecond := 0 }

/-- `timestamp.replace(second=0, microsecond=0)`. -/
def DateTime.minuteTrunc (t : DateTime) : DateTime :=
  { t with second := 0, microsecond := 0 }

/-- `timestamp.date()` as a (year, month, day) triple. -/
def DateTime.dateOf (t : DateTime) : Nat × Nat × Nat := (t.year, t.month, t.day)

def isLeap (y : Nat) : Bool := (y % 4 == 0 && y % 100 != 0) || y % 400 == 0

def monthLength (y m : Nat) : Nat :=
  if m == 2 then (if isLeap y then 29 else 28)
  else if m == 4 || m == 6 || m == 9 || m == 11 then 30
  else 31

/-- 1-based ordinal day of the year of a Gregorian date. -/
def dayOfYear (y m d : Nat) : Nat :=
  (List.range (m - 1)).foldl (fun acc i => acc + monthLength y (i + 1)) 0 + d

/-- Day of the week with Monday = 0 … Sunday = 6 (Zeller congruence for
the Gregorian calendar). -/
def weekdayMon (y m d : Nat) : Nat :=
  let yy := if m ≤ 2 then y - 1 else y
  let mm := if m ≤ 2 then m + 12 else m
  let k := yy % 100
  let j := yy / 100
  let h := (d + (13 * (mm + 1)) / 5 + k + k / 4 + j / 4 + 5 * j) % 7
  (h + 5) % 7

/-- Python `strftime` directive `%W`: week number of the year with Monday
as the first day of the week; all days before the first Monday of the
year are week 0. -/
def weekW (y m d : Nat) : Nat :=
  (dayOfYear y m d + 6 - weekdayMon y m d) / 7

/-- `timestamp.strftime('%Y-%W')`: the calendar year paired with the
Monday-based week number. Two such zero-padded strings are equal exactly
when these pairs are equal. -/
def yearWeekW (t : DateTime) : Nat × Nat := (t.year, weekW t.year t.month t.day)

/-- `timestamp.strftime('%Y-%m')` as a (year, month) pair. -/
def yearMonth (t : DateTime) : Nat × Nat := (t.year, t.month)

/-- The ISO-8601 week-numbering year of a date, as the spec describes the
weekly bucket: week 1 is the week (starting Monday) containing the first
Thursday of the year; leading January days may belong to the last week of
the previous ISO year and trailing December days to week 1 of the next. -/
def isoWeeksInYear (y : Nat) : Nat :=
  let p := fun (n : Nat) => (n + n / 4 - n / 100 + n / 400) % 7
  if p y == 4 || p (y - 1) == 3 then 53 else 52

def isoYearWeek (y m d : Nat) : Nat × Nat :=
  let isoWeekday := weekdayMon y m d + 1
  let w := (dayOfYear y m d + 10 - isoWeekday) / 7
  if w == 0 then (y - 1, isoWeeksInYear (y - 1))
  else if w == 53 && isoWeeksInYear y == 52 then (y + 1, 1)
  else (y, w)

def DateTime.isoYearWeekOf (t : DateTime) : Nat × Nat :=
  isoYearWeek t.year t.month t.day

/-- Exceptions raised by the embedded code. -/
inductive PyError where
  | attributeError
  | keyError (k : String)
  | valueError (msg : String)
  | exc (msg : String)
deriving DecidableEq, Repr

-- ===========================================================================
-- Reward definition and evaluation carriers
-- ===========================================================================

/-- One attribute matcher of an `availability_rule`: a list (or range)
value is a membership test with an equality fallback, anything else an
equality test. -/
inductive AttrMatcher where
  | scalar (v : PyVal)
  | members (vs : List PyAtom)
deriving DecidableEq, Repr

/-- A Python `datetime.time` (availability windows are parsed from
`%H:%M:%S` strings, hence microsecond 0 there). -/
structure ClockTime where
  hour : Nat
  minute : Nat
  second : Nat
  microsecond : Nat
deriving DecidableEq, Repr

def ClockTime.fields (t : ClockTime) : List Nat :=
  [t.hour, t.minute, t.second, t.microsecond]

/-- `timestamp.time()`. -/
def DateTime.clock (t : DateTime) : ClockTime :=
  ⟨t.hour, t.minute, t.second, t.microsecond⟩

/-- Lexicographic `≤` on component lists (Python tuple-style comparison
of times and dates). -/
def lexLe (a b : List Nat) : Bool := !(decide (b < a))

/-- The `availability_rule` dictionary of a reward. Time and date windows
apply only when both endpoints are present; date endpoints are day-month
pairs that `_parse_date` combines with the wall-clock year. All remaining
keys are attribute matchers against the Environment. -/
structure Availability where
  start_time : Option ClockTime
  end_time : Option ClockTime
  start_date : Option (Nat × Nat)
  end_date : Option (Nat × Nat)
  attrs : List (String × AttrMatcher)

/-- One entry of the reward assigner list, after `_evaluate_as_json`
decoding: a None entry, an id or email string, a bare integer user id, a
job-code/groups dictionary, or any other (invalid) shape. -/
inductive AssignerVal where
  | null
  | strId (s : String)
  | intId (n : Int)
  | dict (job_code : Option (List PyAtom)) (groups : Option (List PyAtom))
  | other

/-- One entry of the reward awardee list (a dictionary that may carry
job_code and groups keys). -/
structure AwardeeVal where
  job_code : Option (List PyAtom)
  groups : Option (List PyAtom)

/-- The fields of a `RewardView` definition read by the embedded methods.
`cooldown_minutes` is part of the model (the repository tests construct
`RewardView(cooldown_minutes=...)`). -/
structure RewardCfg where
  reward_id : Int
  reward : String
  reward_type : String
  points : Int
  multiple : Bool
  timeframe : Option String
  cooldown_minutes : Nat
  message : Option String
  programs : List PyAtom
  assigner : List AssignerVal
  awardee : List (Option AwardeeVal)
  availability_rule : Availability

/-- Modelled from the spec: the Environment data carrier
(src/rewards/env.py is absent from the sources) holds the current
timestamp and date plus arbitrary attributes; `sysYear` models the
wall-clock year that `datetime.now()` yields inside `_parse_date`. -/
structure Environment where
  timestamp : DateTime
  sysYear : Nat
  attrs : List (String × PyVal)

structure DateOnly where
  year : Nat
  month : Nat
  day : Nat
deriving DecidableEq, Repr

def DateOnly.fields (d : DateOnly) : List Nat := [d.year, d.month, d.day]

def Environment.curdate (env : Environment) : DateOnly :=
  ⟨env.timestamp.year, env.timestamp.month, env.timestamp.day⟩

/-- `env[key]` lookup; a missing key raises KeyError at the use site. -/
def Environment.get (env : Environment) (k : String) : Option PyVal :=
  (env.attrs.find? (fun p => p.1 == k)).map (fun p => p.2)

/-- Modelled from the spec: the EvalContext data carrier
(src/rewards/context.py is absent from the sources) holds the requesting
user, a dict-like session snapshot, and a `store` merged view exposing
`user_keys`, `session` and arbitrary keys. -/
structure Ctx where
  user_user_id : Int
  user_email : String
  user_display_name : String
  user_programs : List PyAtom
  session_user_id : Int
  session_email : String
  session_groups : List PyAtom
  session_kv : List (String × PyVal)
  store_user_keys : List String
  store_session_keys : List String
  store_kv : List (String × PyVal)
  attr_names : List String

/-- `ctx.session.get(key, None)`: user_id and email are first-class
session fields, the rest live in the key-value snapshot. -/
def Ctx.sessionGet (ctx : Ctx) (k : String) : PyVal :=
  if k == "user_id" then .atom (.int ctx.session_user_id)
  else if k == "email" then .atom (.str ctx.session_email)
  else
    match ctx.session_kv.find? (fun p => p.1 == k) with
    | some p => p.2
    | Option.none => .atom .none

/-- `ctx.store.get(key)`. -/
def Ctx.storeGet (ctx : Ctx) (k : String) : Option PyVal :=
  (ctx.store_kv.find? (fun p => p.1 == k)).map (fun p => p.2)

/-- A Rule strategy: its display string plus its synchronous `fits` and
asynchronous `evaluate` predicates, each of which may raise. -/
structure Rule where
  name : String
  fitsFn : Ctx → Environment → Except PyError Bool
  evalFn : Ctx → Environment → Except PyError Bool

/-- A constructed RewardObject: the reward definition, the conditions
dictionary (only its key set is read by `fits`), and the loaded rules. -/
structure RewardObject where
  reward : RewardCfg
  conditions : Option (List String)
  rules : List Rule

/-- Entries of the `_failed_conditions` list: failed check names, the
per-rule fits map, the gathered rule evaluation results, or the awardee
failure marker. -/
inductive FailedEntry where
  | key (s : String)
  | ruleFits (results : List (String × Bool))
  | ruleResults (results : List Bool)
  | awardeeFailed
deriving DecidableEq, Repr

/-- The mutable attribute state of a RewardObject. `Option.none` models
the `_failed_conditions` attribute not existing yet: `__init__` never
creates it, `fits` assigns it first. -/
structure RewardState where
  failed_conditions : Option (List FailedEntry)
deriving DecidableEq, Repr

/-- `RewardObject.__init__`: builds the object; the failed-conditions
attribute does not exist on the fresh object. -/
def RewardObject.init (reward : RewardCfg) (conditions : Option (List String))
    (rules : List Rule) : RewardObject × RewardState :=
  (⟨reward, conditions, rules⟩, ⟨Option.none⟩)

-- ===========================================================================
-- has_awarded
-- ===========================================================================

/-- One row of the prior-award query result (only `awarded_at` is read by
the timeframe logic). -/
structure AwardRow where
  awarded_at : DateTime
deriving DecidableEq, Repr

/-- The keys of the `allowed_timeframes` dictionary. -/
def allowedTimeframes : List String := ["daily", "weekly", "monthly", "hourly"]

/-- `timeframe_check(a) == timeframe_check(b)` for a validated timeframe:
daily compares calendar dates, weekly compares `%Y-%W` strings, monthly
compares `%Y-%m` strings, hourly compares hour-truncated datetimes. -/
def sameTimeframeBucket (tf : String) (a b : DateTime) : Bool :=
  match tf with
  | "daily" => a.dateOf == b.dateOf
  | "weekly" => yearWeekW a == yearWeekW b
  | "monthly" => yearMonth a == yearMonth b
  | _ => a.hourTrunc == b.hourTrunc

/-- `RewardObject.has_awarded`: `rows` is the prior-award query result
for (user, reward) and `now` is `env.timestamp`. No prior rows means
False; a non-multiple reward with any prior row means True; otherwise a
(truthy) timeframe is validated and bucket-compared, and the final
fallback compares minute-truncated timestamps for equality. -/
def RewardObject.has_awarded (ro : RewardObject) (rows : List AwardRow)
    (now : DateTime) (timeframe : Option String) : Except PyError Bool :=
  if rows.isEmpty then .ok false
  else if !ro.reward.multiple then .ok true
  else
    let minuteHit := rows.any fun r => now.minuteTrunc == r.awarded_at.minuteTrunc
    match timeframe with
    | Option.none => .ok minuteHit
    | some tf =>
      if tf.isEmpty then .ok minuteHit
      else if !allowedTimeframes.contains tf then
        .error (.valueError ("Invalid timeframe: " ++ tf))
      else if rows.any (fun r => sameTimeframeBucket tf now r.awarded_at) then
        .ok true
      else .ok minuteHit

-- ===========================================================================
-- Concrete fixtures
-- ===========================================================================

def emptyAvail : Availability :=
  ⟨Option.none, Option.none, Option.none, Option.none, []⟩

/-- A minimal reward definition: manual, multiple, no constraints. -/
def cfgBase : RewardCfg :=
  { reward_id := 1
    reward := "Test Reward"
    reward_type := "manual"
    points := 10
    multiple := true
    timeframe := Option.none
    cooldown_minutes := 0
    message := Option.none
    programs := []
    assigner := []
    awardee := []
    availability_rule := emptyAvail }

/-- The reward of the repository test
`test_has_awarded_timeframe_none_within_cooldown`: multiple, no
timeframe, a 15-minute cooldown. -/
def cfgCooldown : RewardCfg := { cfgBase with cooldown_minutes := 15 }

def roCooldown : RewardObject := ⟨cfgCooldown, Option.none, []⟩

def evalNow : DateTime := ⟨2025, 6, 2, 10, 30, 0, 0⟩

/-- Five minutes before `evalNow`, i.e. inside the 15-minute cooldown. -/
def fiveMinEarlier : DateTime := ⟨2025, 6, 2, 10, 25, 0, 0⟩

/-- A multiple reward used for weekly-timeframe checks. -/
def roWeekly : RewardObject := ⟨cfgBase, Option.none, []⟩

/-- Monday 2024-12-30, noon: ISO week 2025-W01, strftime %Y-%W = 2024-53. -/
def mondayDec30 : DateTime := ⟨2024, 12, 30, 12, 0, 0, 0⟩

/-- Thursday 2025-01-02, noon: ISO week 2025-W01, strftime %Y-%W = 2025-00. -/
def thursdayJan2 : DateTime := ⟨2025, 1, 2, 12, 0, 0, 0⟩

-- ===========================================================================
-- Claim theorems: has_awarded
-- ===========================================================================

/-- C2: has_awarded returns False when there are no prior award rows, for
every timeframe argument and timestamp; and when the reward has
multiple = False, any prior award row makes it return True, again for
every timeframe argument and timestamp. -/
theorem has_awarded_no_rows_false_nonmultiple_true (ro : RewardObject)
    (rows : List AwardRow) (now : DateTime) (tf : Option String) :
    (rows = [] → ro.has_awarded rows now tf = .ok false) ∧
    (rows ≠ [] → ro.reward.multiple = false → ro.has_awarded rows now tf = .ok true) := by
  constructor
  · intro h
    subst h
    rfl
  · intro hne hm
    unfold RewardObject.has_awarded
    have hempty : rows.isEmpty = false := by
      cases rows with
      | nil => exact absurd rfl hne
      | cons a l => rfl
    rw [hempty, hm]
    rfl

theorem has_awarded_no_rows_false_nonmultiple_true_witness :
    RewardObject.has_awarded roWeekly [] evalNow Option.none = .ok false ∧
    RewardObject.has_awarded ⟨{ cfgBase with multiple := false }, Option.none, []⟩
      [⟨fiveMinEarlier⟩] evalNow (some "bogus") = .ok true := by
  constructor
  · exact (has_awarded_no_rows_false_nonmultiple_true roWeekly [] evalNow Option.none).1 rfl
  · exact (has_awarded_no_rows_false_nonmultiple_true
      ⟨{ cfgBase with multiple := false }, Option.none, []⟩
      [⟨fiveMinEarlier⟩] evalNow (some "bogus")).2 (by simp) rfl

/-- C3: with multiple = True, timeframe = None and a prior award five
minutes before now on a reward whose cooldown window is 15 minutes,
has_awarded evaluates to False: the code never consults
`cooldown_minutes` and only compares minute-truncated timestamps for
equality, although the claim (and the repository test
test_has_awarded_timeframe_none_within_cooldown) expects True inside the
cooldown window. -/
theorem has_awarded_cooldown_never_consulted :
    roCooldown.reward.cooldown_minutes = 15 ∧
    RewardObject.has_awarded roCooldown [⟨fiveMinEarlier⟩] evalNow Option.none =
      .ok false := by
  exact ⟨rfl, rfl⟩

/-- C4 counterexample: Monday 2024-12-30 and Thursday 2025-01-02 lie in
the same ISO year-week (2025-W01), yet has_awarded with timeframe weekly
evaluates to False for a prior award on the Monday and an evaluation
timestamp on the Thursday, because the code buckets by strftime %Y-%W
(calendar year plus Monday-based week number), not by ISO year-week. -/
theorem has_awarded_weekly_not_iso_across_year_boundary :
    mondayDec30.isoYearWeekOf = thursdayJan2.isoYearWeekOf ∧
    mondayDec30.isoYearWeekOf = (2025, 1) ∧
    yearWeekW mondayDec30 = (2024, 53) ∧
    yearWeekW thursdayJan2 = (2025, 0) ∧
    RewardObject.has_awarded roWeekly [⟨mondayDec30⟩] thursdayJan2 (some "weekly") =
      .ok false := by
  refine ⟨by decide, by decide, by decide, by decide, rfl⟩

theorem minuteTrunc_eq_imp_yearWeekW {a b : DateTime}
    (h : a.minuteTrunc = b.minuteTrunc) : yearWeekW a = yearWeekW b := by
  have h1 : a.minuteTrunc.year = b.minuteTrunc.year := congrArg DateTime.year h
  have h2 : a.minuteTrunc.month = b.minuteTrunc.month := congrArg DateTime.month h
  have h3 : a.minuteTrunc.day = b.minuteTrunc.day := congrArg DateTime.day h
  simp only [DateTime.minuteTrunc] at h1 h2 h3
  simp [yearWeekW, h1, h2, h3]

/-- C4 amended: for a multiple reward, has_awarded with timeframe weekly
returns True iff some prior award falls in the same strftime %Y-%W bucket
(calendar year plus Monday-based week number) as the evaluation
timestamp. This agrees with ISO year-week bucketing for timestamps inside
one calendar year (so month-straddling weeks still match) but differs for
weeks straddling a calendar-year boundary. -/
theorem has_awarded_weekly_uses_yearW_buckets (ro : RewardObject)
    (rows : List AwardRow) (now : DateTime) (hm : ro.reward.multiple = true) :
    ro.has_awarded rows now (some "weekly") =
      .ok (rows.any fun r => yearWeekW now == yearWeekW r.awarded_at) := by
  unfold RewardObject.has_awarded
  cases rows with
  | nil => rfl
  | cons a l =>
    rw [hm]
    have hbucket : (fun r : AwardRow => sameTimeframeBucket "weekly" now r.awarded_at)
        = (fun r : AwardRow => yearWeekW now == yearWeekW r.awarded_at) := rfl
    have hemp : "weekly".isEmpty = false := rfl
    have hmem : "weekly" ∈ allowedTimeframes := by simp [allowedTimeframes]
    by_cases hany : ((a :: l).any fun r => yearWeekW now == yearWeekW r.awarded_at) = true
    · simp [hbucket, hany, hemp, hmem]
    · have hmin : ((a :: l).any fun r => now.minuteTrunc == r.awarded_at.minuteTrunc) = false := by
        rw [List.any_eq_false]
        intro r hr hc
        have hb := minuteTrunc_eq_imp_yearWeekW (beq_iff_eq.mp hc)
        apply hany
        rw [List.any_eq_true]
        exact ⟨r, hr, beq_iff_eq.mpr hb⟩
      have hany2 : ((a :: l).any fun r => yearWeekW now == yearWeekW r.awarded_at) = false :=
        Bool.eq_false_iff.mpr (fun hc => hany hc)
      simp [hbucket, hany2, hmin, hemp, hmem]

theorem has_awarded_weekly_uses_yearW_buckets_witness :
    RewardObject.has_awarded roWeekly [⟨mondayDec30⟩] thursdayJan2 (some "weekly") =
      .ok ([AwardRow.mk mondayDec30].any fun r =>
        yearWeekW thursdayJan2 == yearWeekW r.awarded_at) := by
  exact has_awarded_weekly_uses_yearW_buckets roWeekly [⟨mondayDec30⟩] thursdayJan2 rfl

-- ===========================================================================
-- evaluate_environment and fits
-- ===========================================================================

/-- One availability attribute check:
`(isinstance(val, (range, list)) and env[key] in val) or (env[key] == val)`. -/
def matchAttr (envVal : PyVal) (m : AttrMatcher) : Bool :=
  match m with
  | .members vs =>
      (match envVal with
       | .atom a => vs.contains a
       | .list _ => false) || envVal == PyVal.list vs
  | .scalar v => envVal == v

/-- `all(...)` over the remaining availability attributes: lazily stops
at the first failing matcher and raises KeyError on a missing
environment key when it reaches it. -/
def allMatch (env : Environment) : List (String × AttrMatcher) → Except PyError Bool
  | [] => .ok true
  | (k, m) :: rest =>
    match env.get k with
    | Option.none => .error (.keyError k)
    | some v => if matchAttr v m then allMatch env rest else .ok false

/-- `RewardObject.evaluate_environment`: time window, date window and
attribute matchers must all fit; a window applies only when both of its
endpoints are present in the availability rule. -/
def RewardObject.evaluate_environment (ro : RewardObject) (env : Environment) :
    Except PyError Bool := do
  let avail := ro.reward.availability_rule
  let fit_time :=
    match avail.start_time, avail.end_time with
    | some s, some e =>
        lexLe s.fields (env.timestamp.clock).fields &&
        lexLe (env.timestamp.clock).fields e.fields
    | _, _ => true
  let fit_date :=
    match avail.start_date, avail.end_date with
    | some sd, some ed =>
        let s : DateOnly := ⟨env.sysYear, sd.2, sd.1⟩
        let e : DateOnly := ⟨env.sysYear, ed.2, ed.1⟩
        lexLe s.fields (env.curdate).fields && lexLe (env.curdate).fields e.fields
    | _, _ => true
  let fit_matches ← allMatch env avail.attrs
  .ok (fit_time && fit_date && fit_matches)

/-- `ctx.store.get('programs') or getattr(ctx.user, 'programs', []) or []`:
Python `or` keeps the first truthy (non-empty) list. -/
def ctxPrograms (ctx : Ctx) : List PyAtom :=
  let fromStore : List PyAtom :=
    match ctx.storeGet "programs" with
    | some (PyVal.list vs) => vs
    | _ => []
  if !fromStore.isEmpty then fromStore
  else if !ctx.user_programs.isEmpty then ctx.user_programs
  else []

/-- One iteration of the assigner loop. The running value is REASSIGNED
on every non-None entry, exactly as in the source (no accumulation). -/
def assignerStep (ctx : Ctx) (acc : Bool) (a : AssignerVal) : Bool :=
  match a with
  | .null => acc
  | .strId s =>
      (PyVal.atom (.str s) == ctx.sessionGet "user_id") ||
      (PyVal.atom (.str s) == ctx.sessionGet "email")
  | .intId n => PyVal.atom (.int n) == ctx.sessionGet "user_id"
  | .dict jc gs =>
      let acc1 := match jc with
        | some codes =>
            (match ctx.sessionGet "job_code" with
             | .atom x => codes.contains x
             | .list _ => false)
        | Option.none => acc
      match gs with
      | some groups => groups.any fun g => ctx.session_groups.contains g
      | Option.none => acc1
  | .other => false

/-- The per-rule fits loop: `fit_results["fit_rules"]` is overwritten by
each rule in turn (an exception counts as False), while the side map
`fit_rules` records every rule result by name. -/
def fitRulesFold (rules : List Rule) (ctx : Ctx) (env : Environment) :
    Bool × List (String × Bool) :=
  rules.foldl
    (fun acc rule =>
      match rule.fitsFn ctx env with
      | .ok b => (b, acc.2 ++ [(rule.name, b)])
      | .error _ => (false, acc.2 ++ [(rule.name, false)]))
    (true, [])

/-- `RewardObject.fits`: the synchronous gate. Builds the fit_results
dictionary (fit_context, fit_environment, fit_programs, fit_assigner,
fit_events, fit_rules), assigns `_failed_conditions = []`, runs the
program / context / assigner / rule checks, and takes the conjunction of
all dictionary values; on failure the failing keys plus the per-rule map
are stored in the failed-conditions state. -/
def RewardObject.fits (ro : RewardObject) (ctx : Ctx) (env : Environment) :
    Except PyError (Bool × RewardState) := do
  let fit_environment ← ro.evaluate_environment env
  let fit_programs :=
    if !ro.reward.programs.isEmpty then
      ro.reward.programs.any fun p => (ctxPrograms ctx).contains p
    else true
  let fit_context :=
    match ro.conditions with
    | some keys =>
      if keys.isEmpty then true
      else keys.any fun a =>
        ctx.store_user_keys.contains a || ctx.store_session_keys.contains a ||
        ctx.attr_names.contains a
    | Option.none => true
  let fit_assigner := ro.reward.assigner.foldl (assignerStep ctx) true
  let ruleScan := fitRulesFold ro.rules ctx env
  let fit_results : List (String × Bool) :=
    [("fit_context", fit_context), ("fit_environment", fit_environment),
     ("fit_programs", fit_programs), ("fit_assigner", fit_assigner),
     ("fit_events", true), ("fit_rules", ruleScan.1)]
  let overall_fit := fit_results.all fun kv => kv.2
  let st : RewardState :=
    if overall_fit then ⟨some []⟩
    else ⟨some (((fit_results.filter fun kv => !kv.2).map fun kv => FailedEntry.key kv.1)
      ++ [FailedEntry.ruleFits ruleScan.2])⟩
  .ok (overall_fit, st)

/-- `RewardObject.failed_conditions()`: query-and-clear accessor; on an
object whose `_failed_conditions` attribute was never created it raises
AttributeError. -/
def RewardObject.failed_conditions (st : RewardState) :
    Except PyError (List FailedEntry × RewardState) :=
  match st.failed_conditions with
  | Option.none => .error .attributeError
  | some l => .ok (l, ⟨some []⟩)

-- ===========================================================================
-- check_awardee and evaluate
-- ===========================================================================

/-- One iteration of the awardee loop: a string store job_code is wrapped
into a one-element list before the membership test, and the groups check
overwrites the job-code check when both keys are present. -/
def awardeeStep (ctx : Ctx) (acc : Bool) (aw : Option AwardeeVal) : Bool :=
  match aw with
  | Option.none => acc
  | some a =>
    let acc1 := match a.job_code with
      | some codes =>
          (match ctx.storeGet "job_code" with
           | some (PyVal.atom (.str _)) => false
           | some (PyVal.atom x) => codes.contains x
           | some (PyVal.list _) => false
           | Option.none => codes.contains PyAtom.none)
      | Option.none => acc
    match a.groups with
    | some gs =>
        let ctx_groups := match ctx.storeGet "groups" with
          | some (PyVal.list vs) => vs
          | _ => []
        gs.any fun g => ctx_groups.contains g
    | Option.none => acc1

/-- `RewardObject.check_awardee`: vacuously true without awardee
restrictions; otherwise the loop above (last processed entry wins). -/
def RewardObject.check_awardee (ro : RewardObject) (ctx : Ctx) : Bool :=
  ro.reward.awardee.foldl (awardeeStep ctx) true

/-- `asyncio.gather` over the rule evaluations, without
`return_exceptions`: the first raising rule re-raises out of gather. -/
def gatherRules (ro : RewardObject) (ctx : Ctx) (env : Environment) :
    Except PyError (List Bool) :=
  ro.rules.mapM fun rule => rule.evalFn ctx env

/-- `RewardObject.evaluate`: awardee check first, then gather all rule
evaluations; all must be true. Failures are appended to
`_failed_conditions` (AttributeError when that attribute does not exist
yet). -/
def RewardObject.evaluate (ro : RewardObject) (ctx : Ctx) (env : Environment)
    (st : RewardState) : Except PyError (Bool × RewardState) :=
  if ro.check_awardee ctx then
    match gatherRules ro ctx env with
    | .error e => .error e
    | .ok results =>
      let completed := results.all id
      if completed then .ok (true, st)
      else
        match st.failed_conditions with
        | Option.none => .error .attributeError
        | some l => .ok (false, ⟨some (l ++ [FailedEntry.ruleResults results])⟩)
  else
    match st.failed_conditions with
    | Option.none => .error .attributeError
    | some l => .ok (false, ⟨some (l ++ [FailedEntry.awardeeFailed])⟩)

-- ===========================================================================
-- _reward_message and apply
-- ===========================================================================

/-- Outcome of one `template.render_async` call on a message string, as
seen from `_reward_message`: success, a jinja TemplateError, or any other
exception. The template engine is an out-of-scope collaborator passed in
as a function. -/
inductive RenderOutcome where
  | ok (s : String)
  | templateError (msg : String)
  | otherError (msg : String)

/-- Python `a or b` on optional strings (an empty string is falsy). -/
def orElseStr (a b : Option String) : Option String :=
  match a with
  | some s => if s.isEmpty then b else some s
  | Option.none => b

/-- `RewardObject._reward_message`: pick the reward message (falling back
to the message keyword argument, then to the stock congratulations), then
render it. A TemplateError is re-raised as
`ValueError("Template parsing error: ...")`; any other exception is
logged and the raw message string is returned. -/
def RewardObject.reward_message (ro : RewardObject)
    (render : String → RenderOutcome) (kwargsMessage : Option String) :
    Except PyError String :=
  let msg := orElseStr ro.reward.message kwargsMessage
  match msg with
  | Option.none => .ok "Congratulations! You\x27ve received a Badge!"
  | some m =>
    if m.isEmpty then .ok "Congratulations! You\x27ve received a Badge!"
    else
      match render m with
      | .ok rendered => .ok rendered
      | .templateError e => .error (.valueError ("Template parsing error: " ++ e))
      | .otherError _ => .ok m

/-- The giver dictionary built inside `apply`. -/
structure GiverInfo where
  giver_user : Option Int
  giver_email : Option String
  giver_employee : Option PyVal
  giver_name : Option String
deriving DecidableEq, Repr

def noGiver : GiverInfo := ⟨Option.none, Option.none, Option.none, Option.none⟩

/-- The keyword arguments of `apply` that the embedded logic reads. -/
structure ApplyKwargs where
  message : Option String
  giver_user : Option Int
  giver_name : Option String

/-- The award row assembled by `apply` (the fields the embedded checks
and claims inspect; the kwargs merge lets keyword arguments win over the
giver dictionary). -/
structure InsertArgs where
  reward_id : Int
  reward : String
  receiver_user : Int
  receiver_email : String
  receiver_name : String
  points : Int
  awarded_at : DateTime
  reward_type : String
  message : Option String
  giver_user : Option Int
  giver_email : Option String
  giver_employee : Option PyVal
  giver_name : Option String
deriving DecidableEq, Repr

/-- The error channel of `apply`: the bare self-reward string, or one of
the three structured `{message, error}` dictionaries. -/
inductive ApplyError where
  | selfReward
  | errDict (message : String) (error : String)
deriving DecidableEq, Repr

/-- What the modelled `UserReward(**args).insert()` call does: succeed
with the persisted row, or raise ValidationError / DriverError / any
other exception. -/
inductive InsertOutcome where
  | inserted (row : InsertArgs)
  | validationError (payload : String)
  | driverError (msg : String)
  | otherExc (msg : String)

/-- The try-block of `apply`: build the args row, insert it, then await
`check_collectives` (whose exception would also be caught by the generic
handler); notification dispatch is a detached fire-and-forget task and
cannot raise here. The three exception classes map to their structured
error dictionaries. -/
def applyPersist (ro : RewardObject) (ctx : Ctx) (env : Environment)
    (insert : InsertArgs → InsertOutcome) (collectives : Except String Unit)
    (kwargs : ApplyKwargs) (giver : GiverInfo) (message : String) :
    Except PyError (Option InsertArgs × Option ApplyError) :=
  let args : InsertArgs :=
    { reward_id := ro.reward.reward_id
      reward := ro.reward.reward
      receiver_user := ctx.user_user_id
      receiver_email := ctx.user_email
      receiver_name := ctx.user_display_name
      points := ro.reward.points
      awarded_at := env.timestamp
      reward_type := ro.reward.reward_type
      message := some message
      giver_user := match kwargs.giver_user with
        | some g => some g
        | Option.none => giver.giver_user
      giver_email := giver.giver_email
      giver_employee := giver.giver_employee
      giver_name := match kwargs.giver_name with
        | some n => some n
        | Option.none => giver.giver_name }
  match insert args with
  | .inserted row =>
      match collectives with
      | .ok _ => .ok (some row, Option.none)
      | .error msg => .ok (Option.none, some (.errDict "Error Creating Reward" msg))
  | .validationError payload =>
      .ok (Option.none, some (.errDict "Error Validating Reward Payload" payload))
  | .driverError msg =>
      .ok (Option.none, some (.errDict "Error on Rewards Database" msg))
  | .otherExc msg =>
      .ok (Option.none, some (.errDict "Error Creating Reward" msg))

/-- `RewardObject.apply`: render the message when none was supplied (this
happens BEFORE the try-block, so a ValueError from `_reward_message`
propagates), then the giver logic — the giver dictionary is filled only
when no (truthy) giver_user keyword was passed and the session user
differs from the receiving user; the self-reward rejection fires only for
a truthy giver_user keyword equal to the receiving user id — and finally
the persistence step. -/
def RewardObject.apply (ro : RewardObject) (ctx : Ctx) (env : Environment)
    (render : String → RenderOutcome)
    (insert : InsertArgs → InsertOutcome) (collectives : Except String Unit)
    (kwargs : ApplyKwargs) :
    Except PyError (Option InsertArgs × Option ApplyError) := do
  let message ← match kwargs.message with
    | Option.none => ro.reward_message render Option.none
    | some m => Except.ok m
  let giverTruthy : Bool := match kwargs.giver_user with
    | some g => g != 0
    | Option.none => false
  if giverTruthy = false ∧ ctx.session_user_id ≠ ctx.user_user_id then
    applyPersist ro ctx env insert collectives kwargs
      { giver_user := some ctx.session_user_id
        giver_email := some ctx.session_email
        giver_employee := some (ctx.sessionGet "associate_id")
        giver_name := kwargs.giver_name } message
  else if giverTruthy = true ∧ kwargs.giver_user = some ctx.user_user_id then
    Except.ok (Option.none, some ApplyError.selfReward)
  else
    applyPersist ro ctx env insert collectives kwargs noGiver message

-- ===========================================================================
-- Fixtures for the RewardObject claims
-- ===========================================================================

def ctxBase : Ctx :=
  { user_user_id := 2
    user_email := "user@example.com"
    user_display_name := "User Two"
    user_programs := []
    session_user_id := 1
    session_email := "giver@example.com"
    session_groups := []
    session_kv := []
    store_user_keys := []
    store_session_keys := []
    store_kv := []
    attr_names := [] }

def envBase : Environment := ⟨evalNow, 2025, []⟩

def alwaysFalseRule : Rule :=
  ⟨"AlwaysFalse", fun _ _ => .ok false, fun _ _ => .ok false⟩

def alwaysTrueRule : Rule :=
  ⟨"AlwaysTrue", fun _ _ => .ok true, fun _ _ => .ok true⟩

/-- A rule whose asynchronous evaluate raises. -/
def boomRule : Rule :=
  ⟨"Boom", fun _ _ => .ok true, fun _ _ => .error (.exc "boom")⟩

def roTwoRules : RewardObject := ⟨cfgBase, Option.none, [alwaysFalseRule, alwaysTrueRule]⟩

def roOneFalse : RewardObject := ⟨cfgBase, Option.none, [alwaysFalseRule]⟩

def roBoom : RewardObject := ⟨cfgBase, Option.none, [boomRule]⟩

/-- The state after a `fits` call (the attribute exists, list empty). -/
def stReady : RewardState := ⟨some []⟩

def cfgMsg : RewardCfg := { cfgBase with message := some "Hello badge winner" }

def roMsg : RewardObject := ⟨cfgMsg, Option.none, []⟩

def roPlain : RewardObject := ⟨cfgBase, Option.none, []⟩

def kwargsEmpty : ApplyKwargs := ⟨Option.none, Option.none, Option.none⟩

def okInsert : InsertArgs → InsertOutcome := fun a => .inserted a

def renderIdentity : String → RenderOutcome := fun s => .ok s

def renderTemplateError : String → RenderOutcome :=
  fun _ => .templateError "unexpected end of template"

/-- A reward restricted to awardees in a group the base context lacks. -/
def cfgAwardee : RewardCfg :=
  { cfgBase with awardee := [some ⟨Option.none, some [.str "managers"]⟩] }

def roAwardee : RewardObject := ⟨cfgAwardee, Option.none, []⟩

-- ===========================================================================
-- Claim theorems: fits / evaluate / apply
-- ===========================================================================

@[simp] theorem except_bind_ok {ε α β : Type} (a : α) (f : α → Except ε β) :
    (Except.ok a >>= f) = f a := rfl

@[simp] theorem except_bind_error {ε α β : Type} (e : ε) (f : α → Except ε β) :
    ((Except.error e : Except ε α) >>= f) = Except.error e := rfl

@[simp] theorem except_map_ok {ε α β : Type} (f : α → β) (a : α) :
    Except.map f (Except.ok a : Except ε α) = Except.ok (f a) := rfl

/-- C1: the claim requires fits to be False whenever any attached rule
fails, but the rule loop overwrites the single fit_rules slot on every
iteration, so only the last rule counts: with a first rule whose fits is
False and a second whose fits is True (all other checks passing), fits
returns True where the claim requires False. -/
theorem fits_overall_tracks_only_last_rule :
    alwaysFalseRule.fitsFn ctxBase envBase = .ok false ∧
    RewardObject.fits roTwoRules ctxBase envBase = .ok (true, ⟨some []⟩) := ⟨rfl, rfl⟩

/-- C5 counterexample: a single rule whose evaluate raises makes
`evaluate` itself raise (asyncio.gather without return_exceptions), even
on an object whose failed-conditions list exists; the exception is not
downgraded to a False result. -/
theorem evaluate_propagates_rule_exception :
    RewardObject.evaluate roBoom ctxBase envBase stReady = .error (.exc "boom") := rfl

/-- C5 amended: a rule exception propagates out of evaluate (it is NOT
treated as that rule returning False); only when every rule completes
without raising does evaluate return the conjunction of the results,
appending the gathered result list to the failed-conditions list on a
False outcome. -/
theorem evaluate_exception_vs_false (ro : RewardObject) (ctx : Ctx)
    (env : Environment) (l : List FailedEntry)
    (haw : ro.check_awardee ctx = true) :
    (∀ e, gatherRules ro ctx env = .error e →
      RewardObject.evaluate ro ctx env ⟨some l⟩ = .error e) ∧
    (∀ bs, gatherRules ro ctx env = .ok bs →
      RewardObject.evaluate ro ctx env ⟨some l⟩ =
        .ok (bs.all id,
          ⟨some (if bs.all id then l else l ++ [FailedEntry.ruleResults bs])⟩)) := by
  constructor
  · intro e he
    simp [RewardObject.evaluate, haw, he]
  · intro bs hb
    by_cases hall : bs.all id = true
    · simp [RewardObject.evaluate, haw, hb, hall]
    · have hall2 : bs.all id = false := Bool.eq_false_iff.mpr hall
      simp [RewardObject.evaluate, haw, hb, hall2]

theorem evaluate_exception_vs_false_witness :
    RewardObject.evaluate roOneFalse ctxBase envBase ⟨some []⟩ =
      .ok ([false].all id,
        ⟨some (if [false].all id then ([] : List FailedEntry)
               else [] ++ [FailedEntry.ruleResults [false]])⟩) :=
  (evaluate_exception_vs_false roOneFalse ctxBase envBase [] rfl).2 [false] rfl

/-- C6 counterexample: with no explicit message, a TemplateError from the
template engine while rendering the reward message makes apply raise
ValueError (the render happens before the try-block), instead of
proceeding with the raw message. -/
theorem apply_raises_on_template_error :
    RewardObject.apply roMsg ctxBase envBase renderTemplateError okInsert
      (.ok ()) kwargsEmpty =
      .error (.valueError "Template parsing error: unexpected end of template") := rfl

/-- C6 amended: only the generic (non-TemplateError) exception path of
message rendering is non-fatal with fallback to the raw message string; a
TemplateError is re-raised as ValueError and propagates out of apply. -/
theorem apply_template_error_fatal_other_fallback (ro : RewardObject) (ctx : Ctx)
    (env : Environment) (insert : InsertArgs → InsertOutcome)
    (coll : Except String Unit) (kwargs : ApplyKwargs) (m e1 e2 : String)
    (hmsg : ro.reward.message = some m) (hne : m.isEmpty = false)
    (hkm : kwargs.message = Option.none) (hkg : kwargs.giver_user = Option.none) :
    RewardObject.apply ro ctx env (fun _ => .templateError e1) insert coll kwargs =
      .error (.valueError ("Template parsing error: " ++ e1)) ∧
    (RewardObject.apply ro ctx env (fun _ => .otherError e2) (fun a => .inserted a)
        (.ok ()) kwargs).map (fun p => p.1.map InsertArgs.message) =
      .ok (some (some m)) := by
  constructor
  · simp [RewardObject.apply, RewardObject.reward_message, orElseStr, hmsg, hne, hkm]
  · by_cases hses : ctx.session_user_id = ctx.user_user_id
    · simp [RewardObject.apply, RewardObject.reward_message, orElseStr, applyPersist,
        hmsg, hne, hkm, hkg, hses]
    · simp [RewardObject.apply, RewardObject.reward_message, orElseStr, applyPersist,
        hmsg, hne, hkm, hkg, hses]

theorem apply_template_error_fatal_other_fallback_witness :
    RewardObject.apply roMsg ctxBase envBase (fun _ => .templateError "boom2") okInsert
        (.ok ()) kwargsEmpty =
      .error (.valueError ("Template parsing error: " ++ "boom2")) ∧
    (RewardObject.apply roMsg ctxBase envBase (fun _ => .otherError "oops")
        (fun a => .inserted a) (.ok ()) kwargsEmpty).map
        (fun p => p.1.map InsertArgs.message) =
      .ok (some (some "Hello badge winner")) :=
  apply_template_error_fatal_other_fallback roMsg ctxBase envBase okInsert (.ok ())
    kwargsEmpty "Hello badge winner" "boom2" "oops" rfl rfl rfl rfl

def ctxSelf : Ctx := { ctxBase with session_user_id := 2 }

/-- The award row apply persists in the session-equals-receiver case. -/
def selfAwardRow : InsertArgs :=
  { reward_id := 1
    reward := "Test Reward"
    receiver_user := 2
    receiver_email := "user@example.com"
    receiver_name := "User Two"
    points := 10
    awarded_at := evalNow
    reward_type := "manual"
    message := some "hi"
    giver_user := Option.none
    giver_email := Option.none
    giver_employee := Option.none
    giver_name := Option.none }

/-- C7 counterexample: when the session user equals the receiving user
and no explicit giver_user keyword is passed, apply does NOT return the
self-reward error: it persists the award (with the giver fields simply
omitted) and returns the inserted row with no error. -/
theorem apply_session_self_award_proceeds :
    ctxSelf.session_user_id = ctxSelf.user_user_id ∧
    RewardObject.apply roPlain ctxSelf envBase renderIdentity okInsert (.ok ())
      ⟨some "hi", Option.none, Option.none⟩ = .ok (some selfAwardRow, Option.none) :=
  ⟨rfl, rfl⟩

/-- C7 amended: the self-reward rejection fires only when an explicit
(truthy) giver_user keyword equal to the receiving user id is passed; in
that case apply returns the bare error string without persisting. A
session user equal to the receiver merely suppresses the giver fields and
the award proceeds. -/
theorem apply_self_reward_only_explicit_giver (ro : RewardObject) (ctx : Ctx)
    (env : Environment) (render : String → RenderOutcome)
    (insert : InsertArgs → InsertOutcome) (coll : Except String Unit)
    (kwargs : ApplyKwargs) (g : Int) (m : String)
    (hm : kwargs.message = some m) (hg : kwargs.giver_user = some g)
    (hgt : g ≠ 0) (heq : g = ctx.user_user_id) :
    RewardObject.apply ro ctx env render insert coll kwargs =
      .ok (Option.none, some ApplyError.selfReward) := by
  have hu : ctx.user_user_id ≠ 0 := heq ▸ hgt
  simp [RewardObject.apply, hm, hg, hgt, heq, hu]

theorem apply_self_reward_only_explicit_giver_witness :
    RewardObject.apply roPlain ctxBase envBase renderIdentity okInsert (.ok ())
      ⟨some "hi", some 2, Option.none⟩ =
      .ok (Option.none, some ApplyError.selfReward) :=
  apply_self_reward_only_explicit_giver roPlain ctxBase envBase renderIdentity
    okInsert (.ok ()) ⟨some "hi", some 2, Option.none⟩ 2 "hi" rfl rfl
    (by decide) rfl

/-- C10: on a freshly constructed RewardObject the `_failed_conditions`
attribute does not exist: the failed_conditions accessor raises
AttributeError, and evaluate raises AttributeError both when the awardee
check fails and when a rule evaluates to False, because both paths append
to the missing attribute that only fits creates. -/
theorem failed_conditions_missing_before_fits :
    (RewardObject.init cfgBase Option.none []).2.failed_conditions = Option.none ∧
    RewardObject.failed_conditions (RewardObject.init cfgBase Option.none []).2 =
      .error .attributeError ∧
    RewardObject.evaluate roAwardee ctxBase envBase
      (RewardObject.init cfgAwardee Option.none []).2 = .error .attributeError ∧
    RewardObject.evaluate roOneFalse ctxBase envBase
      (RewardObject.init cfgBase Option.none [alwaysFalseRule]).2 =
        .error .attributeError := ⟨rfl, rfl, rfl, rfl⟩

-- ===========================================================================
-- Marketplace: mystery-box tier roll
-- ===========================================================================

/-- One row of the prize_tiers query (ordered by tier_level ascending);
the Decimal/float drop rate is modelled as an exact rational. -/
structure PrizeTier where
  tier_id : Int
  tier_name : String
  tier_level : Int
  drop_rate : Rat
deriving DecidableEq, Repr

/-- The cumulative loop of `_roll_tier`: accumulate drop rates and stop
at the first tier whose cumulative sum reaches the draw. -/
def rollWalk (roll : Rat) : Rat → List PrizeTier → Option PrizeTier
  | _, [] => Option.none
  | cum, t :: ts =>
      let cum2 := cum + t.drop_rate
      if roll ≤ cum2 then some t else rollWalk roll cum2 ts

/-- `MarketplaceService._roll_tier` with the `random.random()` draw
passed in: the cumulative walk, falling back to the first tier of the
list when no tier is reached (an empty list would raise IndexError,
modelled by `Option.none`). -/
def MarketplaceService.roll_tier (tiers : List PrizeTier) (roll : Rat) :
    Option PrizeTier :=
  match rollWalk roll 0 tiers with
  | some t => some t
  | Option.none => tiers.head?

/-- Cumulative drop rate of the first k tiers of the list. -/
def cumRate (tiers : List PrizeTier) (k : Nat) : Rat :=
  ((tiers.take k).map PrizeTier.drop_rate).sum

theorem cumRate_cons (t : PrizeTier) (ts : List PrizeTier) (n : Nat) :
    cumRate (t :: ts) (n + 1) = t.drop_rate + cumRate ts n := by
  simp [cumRate]

theorem rollWalk_hits (roll : Rat) (ts : List PrizeTier) :
    ∀ (cum : Rat) (i : Nat) (hi : i < ts.length),
      roll ≤ cum + cumRate ts (i + 1) →
      (∀ j, j < i → cum + cumRate ts (j + 1) < roll) →
      rollWalk roll cum ts = some (ts.get ⟨i, hi⟩) := by
  induction ts with
  | nil =>
    intro cum i hi
    exact absurd hi (by simp)
  | cons t ts ih =>
    intro cum i hi hle hlt
    cases i with
    | zero =>
      have h1 : roll ≤ cum + t.drop_rate := by
        rw [cumRate_cons] at hle
        simpa [cumRate] using hle
      simp [rollWalk, h1]
    | succ k =>
      have h0 : cum + t.drop_rate < roll := by
        have h := hlt 0 (Nat.succ_pos k)
        rw [cumRate_cons] at h
        simpa [cumRate] using h
      have hcond : ¬ roll ≤ cum + t.drop_rate := not_le.mpr h0
      have hk : k < ts.length := Nat.lt_of_succ_lt_succ (by simpa using hi)
      have hle2 : roll ≤ (cum + t.drop_rate) + cumRate ts (k + 1) := by
        rw [cumRate_cons] at hle
        linarith
      have hlt2 : ∀ j, j < k → (cum + t.drop_rate) + cumRate ts (j + 1) < roll := by
        intro j hj
        have h := hlt (j + 1) (Nat.succ_lt_succ hj)
        rw [cumRate_cons] at h
        linarith
      have h := ih (cum + t.drop_rate) k hk hle2 hlt2
      simpa [rollWalk, hcond] using h

theorem rollWalk_past_end (roll : Rat) (ts : List PrizeTier)
    (hnn : ∀ t ∈ ts, 0 ≤ t.drop_rate) :
    ∀ cum : Rat, cum + cumRate ts ts.length < roll →
      rollWalk roll cum ts = Option.none := by
  induction ts with
  | nil => intro cum _; rfl
  | cons t ts ih =>
    intro cum h
    have hnn2 : ∀ x ∈ ts, 0 ≤ x.drop_rate :=
      fun x hx => hnn x (List.mem_cons_of_mem t hx)
    have hsum : 0 ≤ cumRate ts ts.length := by
      unfold cumRate
      rw [List.take_length]
      apply List.sum_nonneg
      intro x hx
      obtain ⟨y, hy, rfl⟩ := List.mem_map.mp hx
      exact hnn2 y hy
    have hlen : cumRate (t :: ts) (t :: ts).length =
        t.drop_rate + cumRate ts ts.length := by
      rw [List.length_cons, cumRate_cons]
    rw [hlen] at h
    have hcond : ¬ roll ≤ cum + t.drop_rate := by
      apply not_le.mpr
      linarith
    have h2 := ih hnn2 (cum + t.drop_rate) (by linarith)
    simpa [rollWalk, hcond] using h2

/-- Legendary / rare / common tiers in ascending tier-level order with
drop rates 0.05 / 0.15 / 0.80. -/
def tierLegendary : PrizeTier := ⟨3, "legendary", 1, 5/100⟩

def tierRare : PrizeTier := ⟨2, "rare", 2, 15/100⟩

def tierCommon : PrizeTier := ⟨1, "common", 3, 80/100⟩

def mysteryTiers : List PrizeTier := [tierLegendary, tierRare, tierCommon]

/-- The same tier list but with rates summing to 0.9. -/
def lowTiers : List PrizeTier := [tierLegendary, tierRare, ⟨1, "common", 3, 70/100⟩]

/-- C8: the tier roll selects the first tier (in list order) whose
cumulative drop-rate sum meets or exceeds the uniform draw, and falls
back to the first tier of the list when the draw lands past the end of
the walk over nonnegative rates. Concretely, with rates
[0.05, 0.15, 0.80] a draw of 0.03 selects the first tier and a draw of
0.5 the third; with rates summing to 0.9 a draw of 0.95 returns the
first tier of the list. -/
theorem roll_tier_cumulative_walk :
    (∀ (tiers : List PrizeTier) (roll : Rat) (i : Nat) (hi : i < tiers.length),
       roll ≤ cumRate tiers (i + 1) →
       (∀ j, j < i → cumRate tiers (j + 1) < roll) →
       MarketplaceService.roll_tier tiers roll = some (tiers.get ⟨i, hi⟩)) ∧
    (∀ (tiers : List PrizeTier) (roll : Rat),
       (∀ t ∈ tiers, 0 ≤ t.drop_rate) →
       cumRate tiers tiers.length < roll →
       MarketplaceService.roll_tier tiers roll = tiers.head?) ∧
    MarketplaceService.roll_tier mysteryTiers (3/100) = some tierLegendary ∧
    MarketplaceService.roll_tier mysteryTiers (1/2) = some tierCommon ∧
    MarketplaceService.roll_tier lowTiers (95/100) = some tierLegendary := by
  refine ⟨?_, ?_, ?_, ?_, ?_⟩
  · intro tiers roll i hi hle hlt
    unfold MarketplaceService.roll_tier
    rw [rollWalk_hits roll tiers 0 i hi (by rw [zero_add]; exact hle)
      (fun j hj => by rw [zero_add]; exact hlt j hj)]
  · intro tiers roll hnn h
    unfold MarketplaceService.roll_tier
    rw [rollWalk_past_end roll tiers hnn 0 (by rw [zero_add]; exact h)]
  · norm_num [MarketplaceService.roll_tier, rollWalk, mysteryTiers,
      tierLegendary, tierRare, tierCommon]
  · norm_num [MarketplaceService.roll_tier, rollWalk, mysteryTiers,
      tierLegendary, tierRare, tierCommon]
  · norm_num [MarketplaceService.roll_tier, rollWalk, lowTiers,
      tierLegendary, tierRare]

theorem roll_tier_cumulative_walk_witness :
    MarketplaceService.roll_tier mysteryTiers (1/10) = some tierRare ∧
    MarketplaceService.roll_tier lowTiers (99/100) = some tierLegendary := by
  constructor
  · have h := roll_tier_cumulative_walk.1 mysteryTiers (1/10) 1 (by decide)
      (by norm_num [cumRate, mysteryTiers, tierLegendary, tierRare, tierCommon])
      (by
        intro j hj
        have hj0 : j = 0 := Nat.lt_one_iff.mp hj
        subst hj0
        norm_num [cumRate, mysteryTiers, tierLegendary, tierRare, tierCommon])
    exact h
  · exact roll_tier_cumulative_walk.2.1 lowTiers (99/100)
      (by
        intro t ht
        fin_cases ht <;> norm_num [tierLegendary, tierRare])
      (by norm_num [cumRate, lowTiers, tierLegendary, tierRare])

-- ===========================================================================
-- Marketplace: redemption initiation
-- ===========================================================================

/-- The award row fetched by `initiate_redemption` (the prize_awards row
joined with the prize_catalog columns the method reads). -/
structure PrizeAwardRow where
  award_id : Int
  prize_id : Int
  user_id : Int
  status : String
  expires_at : Option DateTime
  prize_name : String
  requires_approval : Bool
  fulfillment_type : Option String

/-- The RedemptionResult dataclass. -/
structure RedemptionResult where
  success : Bool
  redemption_id : Option Int
  redemption_code : Option String
  message : String
  error : Option String
deriving DecidableEq, Repr

/-- What the modelled database did during `initiate_redemption`: whether
the award row was flipped to expired, and (if an insert was attempted)
the initial status it carried. -/
structure RedemptionEffects where
  markedExpired : Bool
  insertedStatus : Option String
deriving DecidableEq, Repr

/-- `award['expires_at'] and award['expires_at'] < datetime.now()`. -/
def expiryPassed (a : PrizeAwardRow) (now : DateTime) : Bool :=
  match a.expires_at with
  | some e => DateTime.before e now
  | Option.none => false

/-- `MarketplaceService.initiate_redemption`: validate existence,
ownership, available status and expiry in that order, each failure
returning an unsuccessful RedemptionResult (the method catches any
exception into the same shape); then insert the redemption with initial
status pending_approval when the prize requires approval, else
initiated. `insert` models the INSERT ... RETURNING of
(redemption_id, redemption_code). -/
def MarketplaceService.initiate_redemption (award : Option PrizeAwardRow)
    (user_id : Int) (now : DateTime)
    (insert : String → Option (Int × String)) :
    RedemptionResult × RedemptionEffects :=
  match award with
  | Option.none =>
      (⟨false, Option.none, Option.none, "", some "Award not found"⟩,
       ⟨false, Option.none⟩)
  | some a =>
    if a.user_id ≠ user_id then
      (⟨false, Option.none, Option.none, "", some "Award does not belong to this user"⟩,
       ⟨false, Option.none⟩)
    else if a.status ≠ "available" then
      (⟨false, Option.none, Option.none, "",
        some ("Award cannot be redeemed (status: " ++ a.status ++ ")")⟩,
       ⟨false, Option.none⟩)
    else if expiryPassed a now then
      (⟨false, Option.none, Option.none, "", some "Award has expired"⟩,
       ⟨true, Option.none⟩)
    else
      let initial_status := if a.requires_approval then "pending_approval" else "initiated"
      match insert initial_status with
      | some rc =>
          (⟨true, some rc.1, some rc.2,
            "Redemption initiated for \x27" ++ a.prize_name ++ "\x27", Option.none⟩,
           ⟨false, some initial_status⟩)
      | Option.none =>
          (⟨false, Option.none, Option.none, "",
            some "Failed to create redemption record"⟩,
           ⟨false, some initial_status⟩)

/-- C9: for an award owned by the requesting user, in available status
and not expired, initiate_redemption attempts the redemption insert with
initial status pending_approval when the prize requires approval and
initiated otherwise (succeeding when the insert returns a row); for an
award in redeemed status it returns an unsuccessful result carrying the
business error, with no insert and no exception. -/
theorem initiate_redemption_status_and_rejection (a : PrizeAwardRow) (uid : Int)
    (now : DateTime) (ins : String → Option (Int × String))
    (howned : a.user_id = uid) :
    (a.status = "available" → expiryPassed a now = false →
      (MarketplaceService.initiate_redemption (some a) uid now ins).2.insertedStatus =
        some (if a.requires_approval then "pending_approval" else "initiated") ∧
      (∀ rid code,
        ins (if a.requires_approval then "pending_approval" else "initiated") =
          some (rid, code) →
        (MarketplaceService.initiate_redemption (some a) uid now ins).1.success = true)) ∧
    (a.status = "redeemed" →
      (MarketplaceService.initiate_redemption (some a) uid now ins).1.success = false ∧
      (MarketplaceService.initiate_redemption (some a) uid now ins).1.error =
        some ("Award cannot be redeemed (status: " ++ a.status ++ ")") ∧
      (MarketplaceService.initiate_redemption (some a) uid now ins).2.insertedStatus =
        Option.none) := by
  constructor
  · intro hs hexp
    constructor
    · cases hins : ins (if a.requires_approval then "pending_approval" else "initiated") with
      | some rc =>
        simp [MarketplaceService.initiate_redemption, howned, hs, hexp, hins]
      | none =>
        simp [MarketplaceService.initiate_redemption, howned, hs, hexp, hins]
    · intro rid code hins
      simp [MarketplaceService.initiate_redemption, howned, hs, hexp, hins]
  · intro hs
    have hne : a.status ≠ "available" := by
      rw [hs]
      decide
    simp [MarketplaceService.initiate_redemption, howned, hne]

def awardAvailable : PrizeAwardRow :=
  ⟨101, 7, 42, "available", Option.none, "Coffee Mug", true, some "shipping"⟩

def awardRedeemed : PrizeAwardRow :=
  ⟨102, 7, 42, "redeemed", Option.none, "Coffee Mug", false, some "shipping"⟩

def insAlways : String → Option (Int × String) := fun _ => some (501, "RDM-1")

theorem initiate_redemption_status_and_rejection_witness :
    (MarketplaceService.initiate_redemption (some awardAvailable) 42 evalNow
        insAlways).2.insertedStatus = some "pending_approval" ∧
    (MarketplaceService.initiate_redemption (some awardAvailable) 42 evalNow
        insAlways).1.success = true ∧
    (MarketplaceService.initiate_redemption (some awardRedeemed) 42 evalNow
        insAlways).1.success = false := by
  refine ⟨?_, ?_, ?_⟩
  · exact ((initiate_redemption_status_and_rejection awardAvailable 42 evalNow
      insAlways rfl).1 rfl rfl).1
  · exact ((initiate_redemption_status_and_rejection awardAvailable 42 evalNow
      insAlways rfl).1 rfl rfl).2 501 "RDM-1" rfl
  · exact ((initiate_redemption_status_and_rejection awardRedeemed 42 evalNow
      insAlways rfl).2 rfl).1

end NavRewards
